import Mathlib

/-
Verification development for the Pando hood reconciliation core
(homebridge-pando-hood).

The development shallowly embeds the accessory logic of `accessory.js`
(device shadow, command debouncer, command cooldown, firmware-quirk
suppression flags) and the polling/connectivity logic of `platform.ts`
as executable Lean definitions, and proves the behavioural laws stated
in the specification about them.

Modelling conventions:
  - Capability values are integers (`Int`); a capability map is an
    association list with JavaScript-object semantics (unique keys when
    built by `capSet`; lookup takes the first match).
  - JavaScript falsiness of a capability read (`!state[k]`, covering
    both `undefined` and `0`) is modelled as `capGetD m k 0 = 0`.
  - Wall-clock time (`Date.now()`) is an explicit `now` field advanced
    by a `tick` event; `setTimeout` callbacks are explicit events
    (`debFire`, `lightFire`, `timerFire`) gated on a pending-timeout
    counter, so a fire event with no scheduled timeout is a no-op.
  - Outward traffic (`client.sendCommand`) is a log of batches tagged
    with their origin (debounced flush, auto-light compensation,
    auto-timer compensation); pushes to HomeKit
    (`pushStateToHomeKit`) are a log of derived-value records.
  - The platform manages every accessory uniformly (one batched poll,
    one loop applying `setOnline`/`updateState` to each handler); the
    model carries one representative accessory.
-/

namespace Pando

/-- JavaScript `Math.round (a / b)` for integer `a`, positive `b`:
round half toward positive infinity, i.e. `Int.fdiv (2a + b) (2b)`. -/
def roundDiv (a b : Int) : Int := Int.fdiv (2 * a + b) (2 * b)

/-- `kelvinToMireds` from accessory.js: `Math.round(1_000_000 / kelvin)`. -/
def kelvinToMireds (kelvin : Int) : Int := roundDiv 1000000 kelvin

/-- `miredsToKelvin` from accessory.js: `Math.round(1_000_000 / mireds)`. -/
def miredsToKelvin (mireds : Int) : Int := roundDiv 1000000 mireds

/-- `fanSpeedToPercent` from accessory.js: `Math.round((speed / 4) * 100)`. -/
def fanSpeedToPercent (speed : Int) : Int := roundDiv (speed * 100) 4

/-- `percentToFanSpeed` from accessory.js:
`percent <= 0 ? 0 : Math.min(4, Math.max(1, Math.round(percent / 25)))`. -/
def percentToFanSpeed (percent : Int) : Int :=
  if percent ≤ 0 then 0 else min 4 (max 1 (roundDiv percent 25))

/-- `DEFAULT_TIMER_DURATION` (15 minutes, seconds). -/
def DEFAULT_TIMER_DURATION : Int := 900

/-- `DEBOUNCE_MS` (debounce window). -/
def DEBOUNCE_MS : Int := 500

/-- `COMMAND_COOLDOWN_MS` (post-command poll cooldown). -/
def COMMAND_COOLDOWN_MS : Int := 3000

/-- Delay of both auto-suppression timeouts: `DEBOUNCE_MS + 1500`. -/
def AUTO_SUPPRESS_DELAY_MS : Int := DEBOUNCE_MS + 1500

/-- `PandoPlatform.OFFLINE_THRESHOLD`. -/
def OFFLINE_THRESHOLD : Nat := 3

/-- A capability map (a JavaScript object keyed by capability strings). -/
abbrev Caps := List (String × Int)

/-- Read a key from a capability map (first binding wins, as in an
object whose keys are unique). -/
def capGet : Caps → String → Option Int
  | [], _ => none
  | (k, v) :: rest, key => if k = key then some v else capGet rest key

/-- Read with a default: models `m[k] ?? d`, and with `d = 0` also the
falsiness test `!m[k]` (both `undefined` and `0` are falsy). -/
def capGetD (m : Caps) (k : String) (d : Int) : Int := (capGet m k).getD d

/-- Write a key (models `m[k] = v` on an object: replaces the existing
binding or appends a fresh one). -/
def capSet : Caps → String → Int → Caps
  | [], key, v => [(key, v)]
  | (k, w) :: rest, key, v =>
    if k = key then (k, v) :: rest else (k, w) :: capSet rest key v

/-- `Object.assign(m, patch)`: apply each binding of `patch` in order. -/
def capAssign (m : Caps) (patch : Caps) : Caps :=
  patch.foldl (fun a p => capSet a p.1 p.2) m

/-- The value the last patch mentioning `k` carries for `k`, scanning a
sequence of patches with later patches taking precedence. -/
def lastVal : List Caps → String → Option Int
  | [], _ => none
  | p :: rest, k =>
    match lastVal rest k with
    | some v => some v
    | none => capGet p k

/-- `CommandDebouncer` from accessory.js: a pending batch plus the
armed/idle status of its quiescence timer. -/
structure CommandDebouncer where
  pending : Caps
  timerArmed : Bool
  deriving Repr, DecidableEq

/-- `CommandDebouncer.enqueue`: merge the patch into the pending batch
(`Object.assign`) and (re)start the quiescence timer. -/
def CommandDebouncer.enqueue (d : CommandDebouncer) (params : Caps) : CommandDebouncer :=
  { pending := capAssign d.pending params, timerArmed := true }

/-- `CommandDebouncer.flush`: clear the timer, take and clear the
pending batch, and send it unless it is empty. The second component is
the batch handed to the send callback (`none` when no send happens). -/
def CommandDebouncer.flush (d : CommandDebouncer) : CommandDebouncer × Option Caps :=
  let params := d.pending
  let cleared : CommandDebouncer := { pending := [], timerArmed := false }
  if params = [] then (cleared, none) else (cleared, some params)

/-- Origin tag of an outward `sendCommand` batch. -/
inductive Origin where
  | debounced
  | autoLight
  | autoTimer
  deriving Repr, DecidableEq

/-- One record of every derived characteristic value pushed by
`pushStateToHomeKit`. -/
structure Derived where
  fanActive : Int
  fanSpeed : Int
  statusFault : Int
  lightOn : Bool
  brightness : Int
  colorTemp : Int
  filterChange : Int
  filterLife : Int
  cleanAirActive : Int
  cleanAirState : Int
  timerOn : Bool
  deriving Repr, DecidableEq

/-- The whole reconciliation state: one `PandoHoodAccessory` (shadow,
suppression flags, cooldown deadline, debouncer, pending suppression
timeouts), the platform failure counter, the clock, and the two output
logs (outward command batches, HomeKit pushes). -/
structure Sys where
  state : Caps
  lastFanSpeed : Int
  suppressAutoLight : Bool
  suppressAutoTimer : Bool
  online : Bool
  cooldownUntil : Int
  now : Int
  deb : CommandDebouncer
  lightTimeouts : Nat
  timerTimeouts : Nat
  consecutiveFailures : Nat
  sent : List (Origin × Caps)
  pushLog : List Derived
  deriving Repr, DecidableEq

/-- `getFanActive`: `(state["device.onOff"] ?? 0) ? 1 : 0`. -/
def getFanActive (s : Sys) : Int :=
  if capGetD s.state "device.onOff" 0 = 0 then 0 else 1

/-- `getFanSpeed`: 0 while the hood is off, else the percentage of the
shadow speed. -/
def getFanSpeed (s : Sys) : Int :=
  if capGetD s.state "device.onOff" 0 = 0 then 0
  else fanSpeedToPercent (capGetD s.state "device.fanSpeed" 0)

/-- StatusFault characteristic: `NO_FAULT` (0) when online,
`GENERAL_FAULT` (1) when offline. -/
def statusFault (s : Sys) : Int := if s.online then 0 else 1

/-- `getLightOn`: `(state["device.lightOnOff"] ?? 0) === 1`. -/
def getLightOn (s : Sys) : Bool := capGetD s.state "device.lightOnOff" 0 = 1

/-- `getLightBrightness`: clamp to the 10 floor. -/
def getLightBrightness (s : Sys) : Int :=
  max 10 (capGetD s.state "device.lightBrightness" 100)

/-- `getLightColorTemperature`: clamp Kelvin to 2700..6000, convert to
mireds, clamp to the characteristic range. -/
def getLightColorTemperature (s : Sys) : Int :=
  let kelvin := capGetD s.state "device.lightColorTemperature" 2700
  let clamped := max 2700 (min 6000 kelvin)
  max (kelvinToMireds 6000) (min (kelvinToMireds 2700) (kelvinToMireds clamped))

/-- `getFilterChangeIndication`. -/
def getFilterChangeIndication (s : Sys) : Int :=
  if capGetD s.state "device.filter1.worn" 0 = 1 then 1 else 0

/-- `getFilterLifeLevel`: `Math.round((remaining / 360000) * 100)`. -/
def getFilterLifeLevel (s : Sys) : Int :=
  roundDiv (capGetD s.state "device.filter1Value" 0 * 100) 360000

/-- `getCleanAirActive`. -/
def getCleanAirActive (s : Sys) : Int :=
  if capGetD s.state "device.cleanAirEnabled" 0 = 1 then 1 else 0

/-- `getCleanAirCurrentState`. -/
def getCleanAirCurrentState (s : Sys) : Int :=
  if capGetD s.state "device.cleanAirEnabled" 0 = 1 then 2 else 0

/-- `getTimerOn`: always off while the session-scoped auto-timer
suppression flag is set; otherwise mirror `device.timer.enable`. -/
def getTimerOn (s : Sys) : Bool :=
  if s.suppressAutoTimer then false
  else capGetD s.state "device.timer.enable" 0 = 1

/-- All derived characteristic values, as one record. -/
def derived (s : Sys) : Derived :=
  { fanActive := getFanActive s
    fanSpeed := getFanSpeed s
    statusFault := statusFault s
    lightOn := getLightOn s
    brightness := getLightBrightness s
    colorTemp := getLightColorTemperature s
    filterChange := getFilterChangeIndication s
    filterLife := getFilterLifeLevel s
    cleanAirActive := getCleanAirActive s
    cleanAirState := getCleanAirCurrentState s
    timerOn := getTimerOn s }

/-- `pushStateToHomeKit`: push every derived value to HomeKit
(recorded as one entry of the push log). -/
def pushStateToHomeKit (s : Sys) : Sys :=
  { s with pushLog := derived s :: s.pushLog }

/-- `updateState` (poll delivery): during the command cooldown, replace
the shadow only; otherwise replace the shadow, sync `lastFanSpeed` from
a nonzero polled speed, and push to HomeKit. -/
def updateState (s : Sys) (caps : Caps) : Sys :=
  if s.now < s.cooldownUntil then
    { s with state := caps }
  else
    let s1 := { s with state := caps }
    let polledSpeed := capGetD caps "device.fanSpeed" 0
    let s2 := if polledSpeed > 0 then { s1 with lastFanSpeed := polledSpeed } else s1
    pushStateToHomeKit s2

/-- `setOnline`: no-op when unchanged, else flip the flag (the
StatusFault characteristic is derived from it by `statusFault`). -/
def setOnline (s : Sys) (b : Bool) : Sys :=
  if s.online = b then s else { s with online := b }

/-- Enqueue a patch on the accessory's debouncer. -/
def debEnqueue (s : Sys) (params : Caps) : Sys :=
  { s with deb := s.deb.enqueue params }

/-- `setFanActive`: optimistic shadow update, session cleanup on
fan-off, speed restoration and suppression-timeout scheduling on
fan-on. -/
def setFanActive (s : Sys) (v : Int) : Sys :=
  let lightWasOff := capGetD s.state "device.lightOnOff" 0 = 0
  let fanIsCurrentlyOff := capGetD s.state "device.onOff" 0 = 0
  let timerWasOff := fanIsCurrentlyOff ∨ capGetD s.state "device.timer.enable" 0 = 0
  let s1 := { s with state := capSet s.state "device.onOff" v }
  let s2 :=
    if v = 0 then
      { s1 with suppressAutoLight := false, suppressAutoTimer := false,
                state := capSet s1.state "device.timer.enable" 0 }
    else s1
  let commands : Caps :=
    if v = 1 then [("device.onOff", v), ("device.fanSpeed", s.lastFanSpeed)]
    else [("device.onOff", v)]
  let s3 :=
    if v = 1 then { s2 with state := capSet s2.state "device.fanSpeed" s.lastFanSpeed }
    else s2
  let s4 := debEnqueue s3 commands
  let s5 :=
    if v = 1 ∧ lightWasOff then
      { s4 with suppressAutoLight := true, lightTimeouts := s4.lightTimeouts + 1 }
    else s4
  if v = 1 ∧ timerWasOff then
    { s5 with suppressAutoTimer := true, timerTimeouts := s5.timerTimeouts + 1 }
  else s5

/-- `setFanSpeed`: always update the shadow (and `lastFanSpeed` for a
nonzero level); enqueue the command only while the hood is on. -/
def setFanSpeed (s : Sys) (percent : Int) : Sys :=
  let speed := percentToFanSpeed percent
  let s1 := { s with state := capSet s.state "device.fanSpeed" speed }
  let s2 := if speed > 0 then { s1 with lastFanSpeed := speed } else s1
  if capGetD s2.state "device.onOff" 0 = 0 then s2
  else debEnqueue s2 [("device.fanSpeed", speed)]

/-- `setLightOn`: an explicit light-on cancels pending auto-light
suppression; optimistic shadow update; enqueue. -/
def setLightOn (s : Sys) (value : Bool) : Sys :=
  let onVal : Int := if value then 1 else 0
  let s1 := if value then { s with suppressAutoLight := false } else s
  let s2 := { s1 with state := capSet s1.state "device.lightOnOff" onVal }
  debEnqueue s2 [("device.lightOnOff", onVal)]

/-- `setLightBrightness`: clamp to 10..100, shadow update, enqueue. -/
def setLightBrightness (s : Sys) (value : Int) : Sys :=
  let brightness := max 10 (min 100 value)
  debEnqueue { s with state := capSet s.state "device.lightBrightness" brightness }
    [("device.lightBrightness", brightness)]

/-- `setLightColorTemperature`: convert to Kelvin, clamp, shadow
update, enqueue. -/
def setLightColorTemperature (s : Sys) (mireds : Int) : Sys :=
  let kelvin := max 2700 (min 6000 (miredsToKelvin mireds))
  debEnqueue { s with state := capSet s.state "device.lightColorTemperature" kelvin }
    [("device.lightColorTemperature", kelvin)]

/-- `setCleanAirActive`. -/
def setCleanAirActive (s : Sys) (value : Int) : Sys :=
  let active : Int := if value = 1 then 1 else 0
  debEnqueue { s with state := capSet s.state "device.cleanAirEnabled" active }
    [("device.cleanAirEnabled", active)]

/-- `setTimerActive`: enabling cancels the auto-timer suppression and
sends `timer.enable: 1` with a duration defaulted away from a falsy
`timerValue` (`||`, so both 0 and unset fall back to 900); disabling
sends `timer.enable: 0`. -/
def setTimerActive (s : Sys) (value : Bool) : Sys :=
  if value then
    let s1 := { s with suppressAutoTimer := false }
    let duration :=
      if capGetD s1.state "device.timerValue" 0 = 0 then DEFAULT_TIMER_DURATION
      else capGetD s1.state "device.timerValue" 0
    let newState := capSet (capSet s1.state "device.timer.enable" 1) "device.timerValue" duration
    let s2 := { s1 with state := newState }
    debEnqueue s2 [("device.timer.enable", 1), ("device.timerValue", duration)]
  else
    let s1 := { s with state := capSet s.state "device.timer.enable" 0 }
    debEnqueue s1 [("device.timer.enable", 0)]

/-- The event-loop alphabet: HomeKit set handlers, the three kinds of
timeout expiry (`debFire` is the debouncer's quiescence timer,
`lightFire` and `timerFire` the scheduled suppression checks), the two
outcomes of one batched platform poll, and the passage of time. -/
inductive Ev where
  | tick (d : Nat)
  | fanActive (v : Int)
  | fanSpeed (percent : Int)
  | lightOn (value : Bool)
  | lightBrightness (value : Int)
  | lightColorTemp (value : Int)
  | cleanAir (value : Int)
  | timerOn (value : Bool)
  | debFire
  | lightFire
  | timerFire
  | pollOk (caps : Caps)
  | pollFail
  deriving Repr, DecidableEq

/-- The debouncer's quiescence timer fires: `flush` (clear timer, take
and clear the pending batch, skip an empty batch), composed with the
send callback installed by the accessory constructor (suppress the
command when offline, else arm the cooldown and send). `flush` hands
`some batch` to the callback exactly when the pending batch is
nonempty, which is the `params = []` test below. -/
def fireDebouncer (s : Sys) : Sys :=
  if s.deb.timerArmed then
    let params := s.deb.pending
    let s1 := { s with deb := (s.deb.flush).1 }
    if params = [] then s1
    else if s1.online then
      { s1 with cooldownUntil := s1.now + COMMAND_COOLDOWN_MS,
                sent := (Origin.debounced, params) :: s1.sent }
    else s1
  else s

/-- A scheduled auto-light suppression timeout fires: if the one-shot
flag is still set, clear it, and (unless offline) arm the cooldown and
send the compensating light-off command directly. -/
def fireAutoLight (s : Sys) : Sys :=
  if 0 < s.lightTimeouts then
    let s0 := { s with lightTimeouts := s.lightTimeouts - 1 }
    if s0.suppressAutoLight then
      let s1 := { s0 with suppressAutoLight := false }
      if s1.online then
        { s1 with cooldownUntil := s1.now + COMMAND_COOLDOWN_MS,
                  sent := (Origin.autoLight, [("device.lightOnOff", 0)]) :: s1.sent }
      else s1
    else s0
  else s

/-- A scheduled auto-timer suppression timeout fires: if the
session-scoped flag is still set, (unless offline) arm the cooldown and
send the compensating timer-off command; the flag is deliberately NOT
cleared. -/
def fireAutoTimer (s : Sys) : Sys :=
  if 0 < s.timerTimeouts then
    let s0 := { s with timerTimeouts := s.timerTimeouts - 1 }
    if s0.suppressAutoTimer then
      if s0.online then
        { s0 with cooldownUntil := s0.now + COMMAND_COOLDOWN_MS,
                  sent := (Origin.autoTimer, [("device.timer.enable", 0)]) :: s0.sent }
      else s0
    else s0
  else s

/-- One successful batched poll (`platform.startPolling`, success arm):
remember whether we were at or past the offline threshold, reset the
failure counter, restore online status if recovering, then deliver the
result to the accessory. -/
def pollSuccess (s : Sys) (caps : Caps) : Sys :=
  let wasOffline := OFFLINE_THRESHOLD ≤ s.consecutiveFailures
  let s1 := { s with consecutiveFailures := 0 }
  let s2 := if wasOffline then setOnline s1 true else s1
  updateState s2 caps

/-- One failed batched poll (`platform.startPolling`, catch arm):
increment the counter; exactly when it reaches the threshold, mark the
accessory offline. -/
def pollFailure (s : Sys) : Sys :=
  let s1 := { s with consecutiveFailures := s.consecutiveFailures + 1 }
  if s1.consecutiveFailures = OFFLINE_THRESHOLD then setOnline s1 false else s1

/-- Single event-loop step. -/
def step (s : Sys) : Ev → Sys
  | .tick d => { s with now := s.now + (d : Int) }
  | .fanActive v => setFanActive s v
  | .fanSpeed percent => setFanSpeed s percent
  | .lightOn value => setLightOn s value
  | .lightBrightness value => setLightBrightness s value
  | .lightColorTemp value => setLightColorTemperature s value
  | .cleanAir value => setCleanAirActive s value
  | .timerOn value => setTimerActive s value
  | .debFire => fireDebouncer s
  | .lightFire => fireAutoLight s
  | .timerFire => fireAutoTimer s
  | .pollOk caps => pollSuccess s caps
  | .pollFail => pollFailure s

/-- Run a list of events through the event loop. -/
def run (s : Sys) (evs : List Ev) : Sys := evs.foldl step s

/-- Number of compensating auto-light commands sent so far. -/
def autoLightSends (s : Sys) : Nat :=
  s.sent.countP (fun e => decide (e.1 = Origin.autoLight))

/-- Number of compensating auto-timer commands sent so far. -/
def autoTimerSends (s : Sys) : Nat :=
  s.sent.countP (fun e => decide (e.1 = Origin.autoTimer))

theorem capGet_capSet_self (m : Caps) (k : String) (v : Int) :
    capGet (capSet m k v) k = some v := by
  induction m with
  | nil => simp [capSet, capGet]
  | cons p rest ih =>
    obtain ⟨k1, v1⟩ := p
    by_cases h : k1 = k
    · simp [capSet, capGet, h]
    · simp [capSet, capGet, h, ih]

theorem capGet_capSet_ne (m : Caps) (k key : String) (v : Int) (h : key ≠ k) :
    capGet (capSet m key v) k = capGet m k := by
  induction m with
  | nil => simp [capSet, capGet, h]
  | cons p rest ih =>
    obtain ⟨k1, v1⟩ := p
    by_cases h1 : k1 = key
    · subst h1; simp [capSet, capGet, h]
    · simp [capSet, capGet, h1, ih]

/-- A key that reads to a value is present among the map's keys. -/
theorem capGet_some_mem (m : Caps) (k : String) (v : Int)
    (h : capGet m k = some v) : k ∈ m.map Prod.fst := by
  induction m with
  | nil => simp [capGet] at h
  | cons p rest ih =>
    obtain ⟨k1, v1⟩ := p
    by_cases h1 : k1 = k
    · simp [h1]
    · simp only [capGet, if_neg h1] at h
      simp only [List.map_cons, List.mem_cons]
      exact Or.inr (ih h)

/-- Reading through `Object.assign`: a key bound by a duplicate-free
patch reads the patch's value; any other key reads the base map. -/
theorem capGet_capAssign (m : Caps) (p : Caps) (k : String)
    (hnd : (p.map Prod.fst).Nodup) :
    capGet (capAssign m p) k =
      match capGet p k with
      | some v => some v
      | none => capGet m k := by
  induction p generalizing m with
  | nil => simp [capAssign, capGet]
  | cons q rest ih =>
    obtain ⟨k1, v1⟩ := q
    simp only [List.map_cons, List.nodup_cons] at hnd
    have step1 : capAssign m ((k1, v1) :: rest) = capAssign (capSet m k1 v1) rest := rfl
    rw [step1, ih (capSet m k1 v1) hnd.2]
    by_cases h : k1 = k
    · subst h
      have hnone : capGet rest k1 = none := by
        cases hcg : capGet rest k1 with
        | none => rfl
        | some w => exact absurd (capGet_some_mem rest k1 w hcg) hnd.1
      simp [capGet, hnone, capGet_capSet_self]
    · simp only [capGet, if_neg h]
      cases hcg : capGet rest k with
      | none => simp [capGet_capSet_ne m k k1 v1 h]
      | some w => rfl

theorem capAssign_ne_nil (m : Caps) (p : Caps) (h : m ≠ []) :
    capAssign m p ≠ [] := by
  induction p generalizing m with
  | nil => simpa [capAssign]
  | cons q rest ih =>
    obtain ⟨k1, v1⟩ := q
    have step1 : capAssign m ((k1, v1) :: rest) = capAssign (capSet m k1 v1) rest := rfl
    rw [step1]
    apply ih
    cases m with
    | nil => simp [capSet]
    | cons r t =>
      obtain ⟨k2, v2⟩ := r
      by_cases h2 : k2 = k1 <;> simp [capSet, h2]

theorem run_nil (s : Sys) : run s [] = s := rfl

theorem run_cons (s : Sys) (e : Ev) (evs : List Ev) :
    run s (e :: evs) = run (step s e) evs := rfl

theorem run_append (s : Sys) (a b : List Ev) :
    run s (a ++ b) = run (run s a) b := by
  simp [run, List.foldl_append]

/-- A concrete accessory state used to instantiate the proved laws:
hood off, light off, timer idle, online, no pending work. -/
def sysEx : Sys :=
  { state := [("device.onOff", 0), ("device.lightOnOff", 0),
              ("device.timer.enable", 0), ("device.timerValue", 0),
              ("device.fanSpeed", 0)]
    lastFanSpeed := 2
    suppressAutoLight := false
    suppressAutoTimer := false
    online := true
    cooldownUntil := 0
    now := 0
    deb := { pending := [], timerArmed := false }
    lightTimeouts := 0
    timerTimeouts := 0
    consecutiveFailures := 0
    sent := []
    pushLog := [] }

example : autoLightSends (run sysEx [Ev.fanActive 1, Ev.debFire, Ev.lightFire]) = 1 := by decide

example : autoLightSends (run sysEx [Ev.fanActive 1, Ev.pollFail, Ev.pollFail, Ev.pollFail, Ev.lightFire]) = 0 := by decide

example : getTimerOn (run sysEx [Ev.fanActive 1, Ev.timerFire]) = false := by decide

/-- Claim C3: a poll result delivered to `updateState` strictly before
the cooldown deadline replaces the shadow with the polled capability
map but pushes nothing to HomeKit; delivered strictly after the
deadline, it replaces the shadow and pushes all derived values. -/
theorem updateState_cooldown_boundary (s : Sys) (caps : Caps) :
    (s.now < s.cooldownUntil →
      (updateState s caps).state = caps ∧
      (updateState s caps).pushLog = s.pushLog) ∧
    (s.cooldownUntil < s.now →
      (updateState s caps).state = caps ∧
      (updateState s caps).pushLog = derived (updateState s caps) :: s.pushLog) := by
  refine ⟨fun h => ?_, fun h => ?_⟩
  · simp [updateState, h]
  · have hn : ¬ s.now < s.cooldownUntil := by omega
    by_cases hp : capGetD caps "device.fanSpeed" 0 > 0 <;>
      simp [updateState, hn, hp, pushStateToHomeKit, derived, getFanActive,
        getFanSpeed, statusFault, getLightOn, getLightBrightness,
        getLightColorTemperature, getFilterChangeIndication, getFilterLifeLevel,
        getCleanAirActive, getCleanAirCurrentState, getTimerOn]

theorem updateState_cooldown_boundary_witness :
    ((0 : Int) < 1000 ∧
      (updateState { sysEx with cooldownUntil := 1000 } [("device.onOff", 1)]).pushLog = []) ∧
    ((0 : Int) < 5 ∧
      (updateState { sysEx with now := 5 } [("device.onOff", 1)]).pushLog =
        derived (updateState { sysEx with now := 5 } [("device.onOff", 1)]) :: []) := by
  refine ⟨⟨by decide, ?_⟩, ⟨by decide, ?_⟩⟩
  · exact ((updateState_cooldown_boundary { sysEx with cooldownUntil := 1000 }
      [("device.onOff", 1)]).1 (by decide)).2
  · exact ((updateState_cooldown_boundary { sysEx with now := 5 }
      [("device.onOff", 1)]).2 (by decide)).2

/-- Claim C8: delivering the same poll result to `updateState` twice in
a row yields the same derived characteristic values after the second
application as after the first. -/
theorem updateState_idempotent (s : Sys) (caps : Caps) :
    derived (updateState (updateState s caps) caps) = derived (updateState s caps) := by
  by_cases h : s.now < s.cooldownUntil <;>
    by_cases hp : capGetD caps "device.fanSpeed" 0 > 0 <;>
      simp [updateState, pushStateToHomeKit, h, hp, derived, getFanActive,
        getFanSpeed, statusFault, getLightOn, getLightBrightness,
        getLightColorTemperature, getFilterChangeIndication, getFilterLifeLevel,
        getCleanAirActive, getCleanAirCurrentState, getTimerOn]

/-- Claim C6: turning the fan off clears both suppression flags and
force-zeroes the shadow's `device.timer.enable`, whatever the shadow
held before. -/
theorem fanOff_clears_session (s : Sys) :
    (step s (Ev.fanActive 0)).suppressAutoLight = false ∧
    (step s (Ev.fanActive 0)).suppressAutoTimer = false ∧
    capGet (step s (Ev.fanActive 0)).state "device.timer.enable" = some 0 := by
  simp [step, setFanActive, debEnqueue, capGet_capSet_self]

/-- Claim C10: enabling the timer enqueues `device.timer.enable = 1`
together with a never-zero `device.timerValue` (defaulting a zero or
unset shadow value to 900), and writes the same duration back into the
shadow. -/
theorem setTimerOn_nonzero_duration (s : Sys) :
    (capGet (step s (Ev.timerOn true)).deb.pending "device.timer.enable" = some 1) ∧
    (capGet (step s (Ev.timerOn true)).deb.pending "device.timerValue" =
      some (if capGetD s.state "device.timerValue" 0 = 0 then DEFAULT_TIMER_DURATION
            else capGetD s.state "device.timerValue" 0)) ∧
    ((if capGetD s.state "device.timerValue" 0 = 0 then DEFAULT_TIMER_DURATION
      else capGetD s.state "device.timerValue" 0) ≠ 0) ∧
    ((capGet s.state "device.timerValue" = some 0 ∨ capGet s.state "device.timerValue" = none) →
      (if capGetD s.state "device.timerValue" 0 = 0 then DEFAULT_TIMER_DURATION
       else capGetD s.state "device.timerValue" 0) = DEFAULT_TIMER_DURATION) ∧
    (capGet (step s (Ev.timerOn true)).state "device.timer.enable" = some 1) ∧
    (capGet (step s (Ev.timerOn true)).state "device.timerValue" =
      some (if capGetD s.state "device.timerValue" 0 = 0 then DEFAULT_TIMER_DURATION
            else capGetD s.state "device.timerValue" 0)) := by
  have hne : ("device.timerValue" : String) ≠ "device.timer.enable" := by decide
  have hne2 : ("device.timer.enable" : String) ≠ "device.timerValue" := by decide
  refine ⟨?_, ?_, ?_, ?_, ?_, ?_⟩
  · simp [step, setTimerActive, debEnqueue, CommandDebouncer.enqueue, capAssign,
      capGet_capSet_self, capGet_capSet_ne _ _ _ _ hne]
  · simp [step, setTimerActive, debEnqueue, CommandDebouncer.enqueue, capAssign,
      capGet_capSet_self]
  · by_cases h : capGetD s.state "device.timerValue" 0 = 0 <;> simp [h, DEFAULT_TIMER_DURATION]
  · intro h
    have h0 : capGetD s.state "device.timerValue" 0 = 0 := by
      cases h with
      | inl h => simp [capGetD, h]
      | inr h => simp [capGetD, h]
    simp [h0]
  · simp [step, setTimerActive, capGet_capSet_self, capGet_capSet_ne _ _ _ _ hne, debEnqueue]
  · simp [step, setTimerActive, capGet_capSet_self, debEnqueue]

theorem setTimerOn_nonzero_duration_witness :
    (capGet (step sysEx (Ev.timerOn true)).deb.pending "device.timer.enable" = some 1) ∧
    (capGet (step sysEx (Ev.timerOn true)).deb.pending "device.timerValue" = some 900) ∧
    (capGet (step sysEx (Ev.timerOn true)).state "device.timerValue" = some 900) := by
  have h := setTimerOn_nonzero_duration sysEx
  have hv : capGetD sysEx.state "device.timerValue" 0 = 0 := by decide
  refine ⟨h.1, ?_, ?_⟩
  · have := h.2.1
    simp only [hv, if_pos rfl] at this
    simpa [DEFAULT_TIMER_DURATION] using this
  · have := h.2.2.2.2.2
    simp only [hv, if_pos rfl] at this
    simpa [DEFAULT_TIMER_DURATION] using this

/-- Claim C9: a fan-speed intent arriving while the hood is off only
updates the shadow's `device.fanSpeed` (and, for a nonzero level,
`lastFanSpeed`); nothing is enqueued and nothing is sent, and every
other component of the state is untouched. -/
theorem setFanSpeed_while_off_frame (s : Sys) (percent : Int)
    (hoff : capGetD s.state "device.onOff" 0 = 0) :
    (step s (Ev.fanSpeed percent)).state =
      capSet s.state "device.fanSpeed" (percentToFanSpeed percent) ∧
    (∀ k, k ≠ "device.fanSpeed" →
      capGet (step s (Ev.fanSpeed percent)).state k = capGet s.state k) ∧
    (0 < percentToFanSpeed percent →
      (step s (Ev.fanSpeed percent)).lastFanSpeed = percentToFanSpeed percent) ∧
    (percentToFanSpeed percent = 0 →
      (step s (Ev.fanSpeed percent)).lastFanSpeed = s.lastFanSpeed) ∧
    (step s (Ev.fanSpeed percent)).deb = s.deb ∧
    (step s (Ev.fanSpeed percent)).sent = s.sent ∧
    (step s (Ev.fanSpeed percent)).suppressAutoLight = s.suppressAutoLight ∧
    (step s (Ev.fanSpeed percent)).suppressAutoTimer = s.suppressAutoTimer ∧
    (step s (Ev.fanSpeed percent)).online = s.online ∧
    (step s (Ev.fanSpeed percent)).cooldownUntil = s.cooldownUntil ∧
    (step s (Ev.fanSpeed percent)).pushLog = s.pushLog ∧
    (step s (Ev.fanSpeed percent)).lightTimeouts = s.lightTimeouts ∧
    (step s (Ev.fanSpeed percent)).timerTimeouts = s.timerTimeouts := by
  have hfs : ("device.fanSpeed" : String) ≠ "device.onOff" := by decide
  have hoff2 : capGetD (capSet s.state "device.fanSpeed" (percentToFanSpeed percent))
      "device.onOff" 0 = 0 := by
    simpa [capGetD, capGet_capSet_ne _ _ _ _ hfs] using hoff
  have hstep : step s (Ev.fanSpeed percent) =
      if 0 < percentToFanSpeed percent then
        { s with state := capSet s.state "device.fanSpeed" (percentToFanSpeed percent),
                 lastFanSpeed := percentToFanSpeed percent }
      else { s with state := capSet s.state "device.fanSpeed" (percentToFanSpeed percent) } := by
    by_cases hp : 0 < percentToFanSpeed percent <;> simp [step, setFanSpeed, hp, hoff2]
  by_cases hp : 0 < percentToFanSpeed percent
  · rw [hstep, if_pos hp]
    refine ⟨rfl, ?_, fun _ => rfl, ?_, rfl, rfl, rfl, rfl, rfl, rfl, rfl, rfl, rfl⟩
    · intro k hk
      exact capGet_capSet_ne _ _ _ _ (Ne.symm hk)
    · intro h0
      omega
  · rw [hstep, if_neg hp]
    refine ⟨rfl, ?_, fun h => absurd h hp, fun _ => rfl, rfl, rfl, rfl, rfl, rfl, rfl, rfl, rfl,
      rfl⟩
    intro k hk
    exact capGet_capSet_ne _ _ _ _ (Ne.symm hk)

theorem setFanSpeed_while_off_frame_witness :
    capGetD sysEx.state "device.onOff" 0 = 0 ∧
    (step sysEx (Ev.fanSpeed 50)).deb = sysEx.deb ∧
    (step sysEx (Ev.fanSpeed 50)).sent = sysEx.sent ∧
    (step sysEx (Ev.fanSpeed 50)).lastFanSpeed = 2 := by
  have h := setFanSpeed_while_off_frame sysEx 50 (by decide)
  refine ⟨by decide, h.2.2.2.2.1, h.2.2.2.2.2.1, ?_⟩
  have := h.2.2.1 (by decide)
  rw [this]
  decide

theorem flush_fst (d : CommandDebouncer) :
    (d.flush).1 = { pending := [], timerArmed := false } := by
  simp only [CommandDebouncer.flush]
  split_ifs <;> rfl

theorem foldl_enqueue_pending (ps : List Caps) (d : CommandDebouncer) :
    (ps.foldl CommandDebouncer.enqueue d).pending = ps.foldl capAssign d.pending := by
  induction ps generalizing d with
  | nil => rfl
  | cons p rest ih => simp [List.foldl_cons, ih, CommandDebouncer.enqueue]

theorem capGet_foldl_assign (ps : List Caps) (m : Caps) (k : String)
    (hnd : ∀ p ∈ ps, (p.map Prod.fst).Nodup) :
    capGet (ps.foldl capAssign m) k =
      match lastVal ps k with
      | some v => some v
      | none => capGet m k := by
  induction ps generalizing m with
  | nil => simp [lastVal]
  | cons p rest ih =>
    have h1 : ∀ q ∈ rest, (q.map Prod.fst).Nodup :=
      fun q hq => hnd q (List.mem_cons_of_mem _ hq)
    rw [List.foldl_cons, ih (capAssign m p) h1]
    cases hl : lastVal rest k with
    | some v => simp [lastVal, hl]
    | none =>
      rw [capGet_capAssign m p k (hnd p (List.mem_cons_self _ _))]
      cases hc : capGet p k <;> simp [lastVal, hl, hc]

/-- Claim C4: any sequence of enqueues inside one quiescence window is
flushed as exactly one outward send whose batch carries, for each
capability key, exactly the last value enqueued for that key (and no
other key); the flush clears the pending batch, and a flush with an
empty pending batch sends nothing. -/
theorem debouncer_coalesces (ps : List Caps)
    (hnd : ∀ p ∈ ps, (p.map Prod.fst).Nodup)
    (hne : ps.foldl capAssign [] ≠ []) :
    (ps.foldl CommandDebouncer.enqueue { pending := [], timerArmed := false }).flush =
      ({ pending := [], timerArmed := false }, some (ps.foldl capAssign [])) ∧
    (∀ k, capGet (ps.foldl capAssign []) k = lastVal ps k) ∧
    (∀ a : Bool,
      CommandDebouncer.flush { pending := [], timerArmed := a } =
        ({ pending := [], timerArmed := false }, none)) := by
  refine ⟨?_, ?_, ?_⟩
  · have hp := foldl_enqueue_pending ps { pending := [], timerArmed := false }
    simp [CommandDebouncer.flush, hp, hne]
  · intro k
    rw [capGet_foldl_assign ps [] k hnd]
    cases lastVal ps k <;> simp [capGet]
  · intro a
    simp [CommandDebouncer.flush]

theorem debouncer_coalesces_witness :
    (∀ p ∈ ([[("device.fanSpeed", 1)], [("device.fanSpeed", 3)], [("device.onOff", 1)]] : List Caps),
      (p.map Prod.fst).Nodup) ∧
    (([[("device.fanSpeed", 1)], [("device.fanSpeed", 3)], [("device.onOff", 1)]] : List Caps).foldl
        CommandDebouncer.enqueue { pending := [], timerArmed := false }).flush =
      ({ pending := [], timerArmed := false },
        some [("device.fanSpeed", 3), ("device.onOff", 1)]) := by
  refine ⟨by decide, ?_⟩
  have h := debouncer_coalesces
    [[("device.fanSpeed", 1)], [("device.fanSpeed", 3)], [("device.onOff", 1)]]
    (by decide) (by decide)
  rw [h.1]
  decide

/-- Claim C2: while `suppressAutoTimer` is set the timer getter reports
off regardless of what the shadow holds; the compensating timer-off
action firing does not clear the flag; and the only events that clear a
set flag are an explicit timer-enable and a fan-off. -/
theorem timer_suppression_session_scoped (s : Sys) :
    (s.suppressAutoTimer = true → getTimerOn s = false) ∧
    ((step s Ev.timerFire).suppressAutoTimer = s.suppressAutoTimer) ∧
    (∀ e : Ev, s.suppressAutoTimer = true → (step s e).suppressAutoTimer = false →
      e = Ev.timerOn true ∨ e = Ev.fanActive 0) := by
  refine ⟨fun h => by simp [getTimerOn, h], ?_, ?_⟩
  · simp only [step, fireAutoTimer]
    split_ifs <;> rfl
  · intro e hpre hpost
    cases e with
    | tick d => simp only [step] at hpost; simp [hpre] at hpost
    | fanActive v =>
      by_cases hv : v = 0
      · right; rw [hv]
      · exfalso
        have hp : (step s (Ev.fanActive v)).suppressAutoTimer = true := by
          simp only [step, setFanActive, debEnqueue]
          split_ifs with h1 h2 h3 h4 <;>
            first
              | exact absurd h1 hv
              | rfl
              | exact hpre
        rw [hp] at hpost
        exact absurd hpost (by simp)
    | fanSpeed p =>
      have hp : (step s (Ev.fanSpeed p)).suppressAutoTimer = s.suppressAutoTimer := by
        simp only [step, setFanSpeed, debEnqueue]
        split_ifs <;> rfl
      simp [hp, hpre] at hpost
    | lightOn b =>
      have hp : (step s (Ev.lightOn b)).suppressAutoTimer = s.suppressAutoTimer := by
        simp only [step, setLightOn, debEnqueue]
        split_ifs <;> rfl
      simp [hp, hpre] at hpost
    | lightBrightness v =>
      have hp : (step s (Ev.lightBrightness v)).suppressAutoTimer = s.suppressAutoTimer := rfl
      simp [hp, hpre] at hpost
    | lightColorTemp v =>
      have hp : (step s (Ev.lightColorTemp v)).suppressAutoTimer = s.suppressAutoTimer := rfl
      simp [hp, hpre] at hpost
    | cleanAir v =>
      have hp : (step s (Ev.cleanAir v)).suppressAutoTimer = s.suppressAutoTimer := rfl
      simp [hp, hpre] at hpost
    | timerOn b =>
      cases b with
      | false =>
        have hp : (step s (Ev.timerOn false)).suppressAutoTimer = s.suppressAutoTimer := by
          simp [step, setTimerActive, debEnqueue]
        simp [hp, hpre] at hpost
      | true => left; rfl
    | debFire =>
      have hp : (step s Ev.debFire).suppressAutoTimer = s.suppressAutoTimer := by
        simp only [step, fireDebouncer]
        split_ifs <;> rfl
      simp [hp, hpre] at hpost
    | lightFire =>
      have hp : (step s Ev.lightFire).suppressAutoTimer = s.suppressAutoTimer := by
        simp only [step, fireAutoLight]
        split_ifs <;> rfl
      simp [hp, hpre] at hpost
    | timerFire =>
      have hp : (step s Ev.timerFire).suppressAutoTimer = s.suppressAutoTimer := by
        simp only [step, fireAutoTimer]
        split_ifs <;> rfl
      simp [hp, hpre] at hpost
    | pollOk caps =>
      have hp : (step s (Ev.pollOk caps)).suppressAutoTimer = s.suppressAutoTimer := by
        simp only [step, pollSuccess, setOnline, updateState, pushStateToHomeKit]
        split_ifs <;> rfl
      simp [hp, hpre] at hpost
    | pollFail =>
      have hp : (step s Ev.pollFail).suppressAutoTimer = s.suppressAutoTimer := by
        simp only [step, pollFailure, setOnline]
        split_ifs <;> rfl
      simp [hp, hpre] at hpost

/-- An accessory state inside a suppressed fan session whose shadow
nevertheless reports the firmware's `timer.enable: 1`. -/
def sysTimerSup : Sys :=
  { sysEx with suppressAutoTimer := true, state := [("device.timer.enable", 1), ("device.timer.active", 1)] }

theorem timer_suppression_session_scoped_witness :
    sysTimerSup.suppressAutoTimer = true ∧
    getTimerOn sysTimerSup = false ∧
    (step sysTimerSup Ev.timerFire).suppressAutoTimer = sysTimerSup.suppressAutoTimer := by
  refine ⟨rfl, ?_, ?_⟩
  · exact (timer_suppression_session_scoped _).1 rfl
  · exact (timer_suppression_session_scoped _).2.1

theorem pollFail_step (s : Sys) (j : Nat) (hj : s.consecutiveFailures = j)
    (hon : s.online = true ↔ j < OFFLINE_THRESHOLD) :
    (step s Ev.pollFail).consecutiveFailures = j + 1 ∧
    ((step s Ev.pollFail).online = true ↔ j + 1 < OFFLINE_THRESHOLD) := by
  by_cases h3 : j + 1 = OFFLINE_THRESHOLD
  · have honT : s.online = true := hon.mpr (by omega)
    constructor
    · simp [step, pollFailure, setOnline, hj, h3, honT]
    · simp [step, pollFailure, setOnline, hj, h3, honT]
      try omega
  · constructor
    · simp [step, pollFailure, setOnline, hj, h3]
    · by_cases hlt : j + 1 < OFFLINE_THRESHOLD
      · have : j < OFFLINE_THRESHOLD := by omega
        simp [step, pollFailure, setOnline, hj, h3, hon.mpr this, hlt]
      · have hge : ¬ j < OFFLINE_THRESHOLD := by omega
        have hoff : s.online ≠ true := fun hc => hge (hon.mp hc)
        simp [step, pollFailure, setOnline, hj, h3, hlt]
        exact Bool.eq_false_iff.mpr hoff

theorem pollFail_run (k : Nat) : ∀ (s : Sys) (j : Nat),
    s.consecutiveFailures = j → (s.online = true ↔ j < OFFLINE_THRESHOLD) →
    (run s (List.replicate k Ev.pollFail)).consecutiveFailures = j + k ∧
    ((run s (List.replicate k Ev.pollFail)).online = true ↔ j + k < OFFLINE_THRESHOLD) := by
  induction k with
  | zero =>
    intro s j hj hon
    simpa [run] using ⟨hj, hon⟩
  | succ n ih =>
    intro s j hj hon
    rw [List.replicate_succ, run_cons]
    have h1 := pollFail_step s j hj hon
    have h2 := ih (step s Ev.pollFail) (j + 1) h1.1 h1.2
    constructor
    · rw [h2.1]; omega
    · rw [h2.2]; omega

/-- Claim C5: the fault indicator flips to GENERAL_FAULT upon the third
consecutive poll failure and not before; while offline the debounced
send callback and both scheduled compensation commands transmit
nothing; and one successful poll restores online status and resets the
failure counter to zero. -/
theorem offline_threshold_behavior :
    (∀ (s : Sys) (k : Nat), s.online = true → s.consecutiveFailures = 0 →
      (run s (List.replicate k Ev.pollFail)).consecutiveFailures = k ∧
      ((run s (List.replicate k Ev.pollFail)).online = true ↔ k < OFFLINE_THRESHOLD) ∧
      statusFault (run s (List.replicate k Ev.pollFail)) =
        (if k < OFFLINE_THRESHOLD then 0 else 1)) ∧
    (∀ s : Sys, s.online = false →
      (step s Ev.debFire).sent = s.sent ∧
      (step s Ev.lightFire).sent = s.sent ∧
      (step s Ev.timerFire).sent = s.sent) ∧
    (∀ (s : Sys) (caps : Caps), s.online = false →
      OFFLINE_THRESHOLD ≤ s.consecutiveFailures →
      (step s (Ev.pollOk caps)).online = true ∧
      (step s (Ev.pollOk caps)).consecutiveFailures = 0) := by
  refine ⟨?_, ?_, ?_⟩
  · intro s k hon h0
    have h := pollFail_run k s 0 h0 (by simp [hon, OFFLINE_THRESHOLD])
    refine ⟨by simpa using h.1, by simpa using h.2, ?_⟩
    by_cases hk : k < OFFLINE_THRESHOLD
    · have : (run s (List.replicate k Ev.pollFail)).online = true := h.2.mpr (by omega)
      simp [statusFault, this, hk]
    · have : (run s (List.replicate k Ev.pollFail)).online ≠ true :=
        fun hc => hk (by simpa using h.2.mp hc)
      simp [statusFault, Bool.eq_false_iff.mpr this, hk]
  · intro s hoff
    refine ⟨?_, ?_, ?_⟩
    · simp only [step, fireDebouncer]
      split_ifs with h1 h2 h3 <;> first | rfl | (exact absurd (by rw [hoff] at h3; exact h3) (by simp))
    · simp only [step, fireAutoLight]
      split_ifs with h1 h2 h3 <;> first | rfl | (exact absurd (by rw [hoff] at h3; exact h3) (by simp))
    · simp only [step, fireAutoTimer]
      split_ifs with h1 h2 h3 <;> first | rfl | (exact absurd (by rw [hoff] at h3; exact h3) (by simp))
  · intro s caps hoff hge
    have hwo : OFFLINE_THRESHOLD ≤ s.consecutiveFailures := hge
    constructor
    · simp only [step, pollSuccess, setOnline, updateState, pushStateToHomeKit]
      split_ifs <;> simp_all
    · simp only [step, pollSuccess, setOnline, updateState, pushStateToHomeKit]
      split_ifs <;> simp_all

theorem offline_threshold_behavior_witness :
    sysEx.online = true ∧ sysEx.consecutiveFailures = 0 ∧
    ((run sysEx (List.replicate 3 Ev.pollFail)).consecutiveFailures = 3 ∧
      ((run sysEx (List.replicate 3 Ev.pollFail)).online = true ↔ 3 < OFFLINE_THRESHOLD) ∧
      statusFault (run sysEx (List.replicate 3 Ev.pollFail)) =
        (if 3 < OFFLINE_THRESHOLD then 0 else 1)) ∧
    ((run sysEx (List.replicate 3 Ev.pollFail)).online = false →
      OFFLINE_THRESHOLD ≤ (run sysEx (List.replicate 3 Ev.pollFail)).consecutiveFailures →
      (step (run sysEx (List.replicate 3 Ev.pollFail)) (Ev.pollOk [("device.onOff", 0)])).online = true ∧
      (step (run sysEx (List.replicate 3 Ev.pollFail))
        (Ev.pollOk [("device.onOff", 0)])).consecutiveFailures = 0) := by
  refine ⟨by decide, by decide, offline_threshold_behavior.1 sysEx 3 (by decide) (by decide), ?_⟩
  intro h1 h2
  exact offline_threshold_behavior.2.2 _ _ h1 h2

/-- Counterexample to claim C7 as stated: a poll result carrying the
nonzero fan speed 3 is delivered while the command cooldown is active;
the shadow takes the polled speed but `lastFanSpeed` stays at its old
value 2, so `lastFanSpeed` is NOT updated on every nonzero speed
observed through `updateState`. -/
theorem fanSpeed_memory_cex :
    ({ sysEx with cooldownUntil := 1000 } : Sys).now <
      ({ sysEx with cooldownUntil := 1000 } : Sys).cooldownUntil ∧
    capGetD [("device.fanSpeed", 3)] "device.fanSpeed" 0 = 3 ∧
    ({ sysEx with cooldownUntil := 1000 } : Sys).lastFanSpeed = 2 ∧
    (updateState { sysEx with cooldownUntil := 1000 } [("device.fanSpeed", 3)]).lastFanSpeed = 2 ∧
    capGet (updateState { sysEx with cooldownUntil := 1000 }
      [("device.fanSpeed", 3)]).state "device.fanSpeed" = some 3 := by
  decide

/-- Claim C7 (amended): while `device.onOff` is 0 the speed getter
reports 0; `lastFanSpeed` is updated on every nonzero level set through
`setFanSpeed` and on every nonzero polled speed delivered to
`updateState` outside the command-cooldown window (a poll delivered
during the cooldown updates the shadow but not `lastFanSpeed`); and the
remembered speed is part of the pending command batch after the next
fan-on. -/
theorem fanSpeed_floor_and_memory (s : Sys) (percent : Int) (caps : Caps) :
    (capGetD s.state "device.onOff" 0 = 0 → getFanSpeed s = 0) ∧
    (0 < percentToFanSpeed percent →
      (step s (Ev.fanSpeed percent)).lastFanSpeed = percentToFanSpeed percent) ∧
    (¬ s.now < s.cooldownUntil → 0 < capGetD caps "device.fanSpeed" 0 →
      (updateState s caps).lastFanSpeed = capGetD caps "device.fanSpeed" 0) ∧
    capGet (step s (Ev.fanActive 1)).deb.pending "device.fanSpeed" = some s.lastFanSpeed := by
  refine ⟨fun h => by simp [getFanSpeed, h], ?_, ?_, ?_⟩
  · intro hp
    simp only [step, setFanSpeed, debEnqueue]
    split_ifs with h1 h2 h3 <;> rfl
  · intro hcool hsp
    simp [updateState, hcool, hsp, pushStateToHomeKit]
  · by_cases hl : capGetD s.state "device.lightOnOff" 0 = 0 <;>
      by_cases ht : (capGetD s.state "device.onOff" 0 = 0 ∨
          capGetD s.state "device.timer.enable" 0 = 0) <;>
        simp [step, setFanActive, debEnqueue, CommandDebouncer.enqueue, capAssign, hl, ht,
          capGet_capSet_self]

theorem fanSpeed_floor_and_memory_witness :
    capGetD sysEx.state "device.onOff" 0 = 0 ∧ getFanSpeed sysEx = 0 ∧
    (0 < percentToFanSpeed 50 ∧ (step sysEx (Ev.fanSpeed 50)).lastFanSpeed = percentToFanSpeed 50) ∧
    (¬ sysEx.now < sysEx.cooldownUntil ∧ 0 < capGetD [("device.fanSpeed", 3)] "device.fanSpeed" 0 ∧
      (updateState sysEx [("device.fanSpeed", 3)]).lastFanSpeed =
        capGetD [("device.fanSpeed", 3)] "device.fanSpeed" 0) ∧
    capGet (step sysEx (Ev.fanActive 1)).deb.pending "device.fanSpeed" = some sysEx.lastFanSpeed := by
  have h := fanSpeed_floor_and_memory sysEx 50 [("device.fanSpeed", 3)]
  exact ⟨by decide, h.1 (by decide), ⟨by decide, h.2.1 (by decide)⟩,
    ⟨by decide, by decide, h.2.2.1 (by decide) (by decide)⟩, h.2.2.2⟩

theorem step_autoLight_frame (s : Sys) (e : Ev)
    (h1 : e ≠ Ev.lightFire) (h2 : ∀ v, e ≠ Ev.fanActive v) (h3 : e ≠ Ev.lightOn true) :
    (step s e).suppressAutoLight = s.suppressAutoLight ∧
    (step s e).lightTimeouts = s.lightTimeouts ∧
    autoLightSends (step s e) = autoLightSends s := by
  cases e with
  | tick d => exact ⟨rfl, rfl, rfl⟩
  | fanActive v => exact absurd rfl (h2 v)
  | fanSpeed p =>
    refine ⟨?_, ?_, ?_⟩ <;>
      (simp only [step, setFanSpeed, debEnqueue, autoLightSends]; split_ifs <;> rfl)
  | lightOn b =>
    cases b with
    | true => exact absurd rfl h3
    | false => refine ⟨?_, ?_, ?_⟩ <;> simp [step, setLightOn, debEnqueue, autoLightSends]
  | lightBrightness v => exact ⟨rfl, rfl, rfl⟩
  | lightColorTemp v => exact ⟨rfl, rfl, rfl⟩
  | cleanAir v => exact ⟨rfl, rfl, rfl⟩
  | timerOn b =>
    cases b with
    | true => refine ⟨?_, ?_, ?_⟩ <;> simp [step, setTimerActive, debEnqueue, autoLightSends]
    | false => refine ⟨?_, ?_, ?_⟩ <;> simp [step, setTimerActive, debEnqueue, autoLightSends]
  | debFire =>
    refine ⟨?_, ?_, ?_⟩ <;>
      (simp only [step, fireDebouncer, autoLightSends]
       split_ifs <;> simp [List.countP_cons])
  | lightFire => exact absurd rfl h1
  | timerFire =>
    refine ⟨?_, ?_, ?_⟩ <;>
      (simp only [step, fireAutoTimer, autoLightSends]
       split_ifs <;> simp [List.countP_cons])
  | pollOk caps =>
    refine ⟨?_, ?_, ?_⟩ <;>
      (simp only [step, pollSuccess, setOnline, updateState, pushStateToHomeKit, autoLightSends]
       split_ifs <;> rfl)
  | pollFail =>
    refine ⟨?_, ?_, ?_⟩ <;>
      (simp only [step, pollFailure, setOnline, autoLightSends]
       split_ifs <;> rfl)

theorem step_autoLight_false (s : Sys) (e : Ev)
    (hflag : s.suppressAutoLight = false) (h2 : ∀ v, e ≠ Ev.fanActive v) :
    (step s e).suppressAutoLight = false ∧
    autoLightSends (step s e) = autoLightSends s := by
  by_cases h1 : e = Ev.lightFire
  · subst h1
    refine ⟨?_, ?_⟩ <;>
      (simp only [step, fireAutoLight, autoLightSends]
       split_ifs <;> simp_all)
  · by_cases h3 : e = Ev.lightOn true
    · subst h3
      refine ⟨?_, ?_⟩ <;> simp [step, setLightOn, debEnqueue, autoLightSends]
    · have h := step_autoLight_frame s e h1 h2 h3
      exact ⟨h.1.trans hflag, h.2.2⟩

theorem run_autoLight_frame (s : Sys) (evs : List Ev)
    (h : ∀ e ∈ evs, e ≠ Ev.lightFire ∧ (∀ v, e ≠ Ev.fanActive v) ∧ e ≠ Ev.lightOn true) :
    (run s evs).suppressAutoLight = s.suppressAutoLight ∧
    (run s evs).lightTimeouts = s.lightTimeouts ∧
    autoLightSends (run s evs) = autoLightSends s := by
  induction evs generalizing s with
  | nil => exact ⟨rfl, rfl, rfl⟩
  | cons e rest ih =>
    have he := h e (List.mem_cons_self _ _)
    have hs := step_autoLight_frame s e he.1 he.2.1 he.2.2
    have hr := ih (step s e) (fun x hx => h x (List.mem_cons_of_mem _ hx))
    rw [run_cons]
    exact ⟨hr.1.trans hs.1, hr.2.1.trans hs.2.1, hr.2.2.trans hs.2.2⟩

theorem run_autoLight_false (s : Sys) (evs : List Ev)
    (hflag : s.suppressAutoLight = false)
    (h : ∀ e ∈ evs, ∀ v, e ≠ Ev.fanActive v) :
    (run s evs).suppressAutoLight = false ∧
    autoLightSends (run s evs) = autoLightSends s := by
  induction evs generalizing s with
  | nil => exact ⟨hflag, rfl⟩
  | cons e rest ih =>
    have hs := step_autoLight_false s e hflag (h e (List.mem_cons_self _ _))
    have hr := ih (step s e) hs.1 (fun x hx => h x (List.mem_cons_of_mem _ hx))
    rw [run_cons]
    exact ⟨hr.1, hr.2.trans hs.2⟩

theorem fanOn_arms_autoLight (s : Sys)
    (hlight : capGetD s.state "device.lightOnOff" 0 = 0) :
    (step s (Ev.fanActive 1)).suppressAutoLight = true ∧
    0 < (step s (Ev.fanActive 1)).lightTimeouts ∧
    autoLightSends (step s (Ev.fanActive 1)) = autoLightSends s ∧
    (step s (Ev.fanActive 1)).online = s.online := by
  by_cases ht : (capGetD s.state "device.onOff" 0 = 0 ∨
      capGetD s.state "device.timer.enable" 0 = 0) <;>
    simp [step, setFanActive, debEnqueue, hlight, ht, autoLightSends]

theorem lightFire_sends (s : Sys) (hflag : s.suppressAutoLight = true)
    (honline : s.online = true) (ht : 0 < s.lightTimeouts) :
    autoLightSends (step s Ev.lightFire) = autoLightSends s + 1 ∧
    (step s Ev.lightFire).suppressAutoLight = false := by
  constructor <;>
    simp [step, fireAutoLight, hflag, honline, ht, autoLightSends, List.countP_cons]

/-- Counterexample to claim C1 as stated: the fan is turned on while
the light is off and no explicit light-on ever arrives, yet when the
scheduled check fires the device has gone offline, so zero compensating
light-off commands are sent — and none can ever follow, because the
one-shot flag is already cleared and no timeout remains pending. -/
theorem autoLight_compensation_cex :
    capGetD sysEx.state "device.lightOnOff" 0 = 0 ∧
    sysEx.online = true ∧
    autoLightSends
      (run sysEx [Ev.fanActive 1, Ev.pollFail, Ev.pollFail, Ev.pollFail, Ev.lightFire]) = 0 ∧
    (run sysEx
      [Ev.fanActive 1, Ev.pollFail, Ev.pollFail, Ev.pollFail, Ev.lightFire]).suppressAutoLight
      = false ∧
    (run sysEx
      [Ev.fanActive 1, Ev.pollFail, Ev.pollFail, Ev.pollFail, Ev.lightFire]).lightTimeouts = 0 := by
  decide

/-- Claim C1 (amended): the fan is turned on while the shadow's light
key is off; `mid` is any interleaving of further events that fires no
pending light check, toggles no fan state, and carries no explicit
light-on. (a) If the accessory is online when the scheduled check then
fires, exactly one compensating light-off command is sent over the
whole segment — including any fan-toggle-free continuation — and the
one-shot flag is cleared by the firing. (b) If instead the user
explicitly turns the light on before the check fires, zero compensating
light-off commands are sent over the whole run. -/
theorem autoLight_compensation (s : Sys) (mid : List Ev)
    (hlight : capGetD s.state "device.lightOnOff" 0 = 0)
    (hmid : ∀ e ∈ mid, e ≠ Ev.lightFire ∧ (∀ v, e ≠ Ev.fanActive v) ∧ e ≠ Ev.lightOn true) :
    ((run (step s (Ev.fanActive 1)) mid).online = true →
      ∀ rest : List Ev, (∀ e ∈ rest, ∀ v, e ≠ Ev.fanActive v) →
        autoLightSends (run (run (step s (Ev.fanActive 1)) mid) (Ev.lightFire :: rest)) =
          autoLightSends s + 1 ∧
        (step (run (step s (Ev.fanActive 1)) mid) Ev.lightFire).suppressAutoLight = false) ∧
    (∀ rest : List Ev, (∀ e ∈ rest, ∀ v, e ≠ Ev.fanActive v) →
      autoLightSends (run (run (step s (Ev.fanActive 1)) mid) (Ev.lightOn true :: rest)) =
        autoLightSends s) := by
  have harm := fanOn_arms_autoLight s hlight
  have hmidf := run_autoLight_frame (step s (Ev.fanActive 1)) mid hmid
  constructor
  · intro honline rest hrest
    have hflag : (run (step s (Ev.fanActive 1)) mid).suppressAutoLight = true :=
      hmidf.1.trans harm.1
    have htime : 0 < (run (step s (Ev.fanActive 1)) mid).lightTimeouts := by
      rw [hmidf.2.1]; exact harm.2.1
    have hfire := lightFire_sends _ hflag honline htime
    have hafter := run_autoLight_false
      (step (run (step s (Ev.fanActive 1)) mid) Ev.lightFire) rest hfire.2 hrest
    refine ⟨?_, hfire.2⟩
    rw [run_cons, hafter.2, hfire.1, hmidf.2.2, harm.2.2.1]
  · intro rest hrest
    have hlon : (step (run (step s (Ev.fanActive 1)) mid) (Ev.lightOn true)).suppressAutoLight
        = false ∧
        autoLightSends (step (run (step s (Ev.fanActive 1)) mid) (Ev.lightOn true)) =
          autoLightSends (run (step s (Ev.fanActive 1)) mid) := by
      constructor <;> simp [step, setLightOn, debEnqueue, autoLightSends]
    have hafter := run_autoLight_false
      (step (run (step s (Ev.fanActive 1)) mid) (Ev.lightOn true)) rest hlon.1 hrest
    rw [run_cons, hafter.2, hlon.2, hmidf.2.2, harm.2.2.1]

theorem autoLight_compensation_witness :
    capGetD sysEx.state "device.lightOnOff" 0 = 0 ∧
    (run (step sysEx (Ev.fanActive 1)) [Ev.tick 2000]).online = true ∧
    autoLightSends (run (run (step sysEx (Ev.fanActive 1)) [Ev.tick 2000])
      (Ev.lightFire :: [])) = autoLightSends sysEx + 1 ∧
    autoLightSends (run (run (step sysEx (Ev.fanActive 1)) [Ev.tick 2000])
      (Ev.lightOn true :: [])) = autoLightSends sysEx := by
  have hmid : ∀ e ∈ [Ev.tick 2000], e ≠ Ev.lightFire ∧
      (∀ v, e ≠ Ev.fanActive v) ∧ e ≠ Ev.lightOn true := by
    intro e he
    have he2 : e = Ev.tick 2000 := by simpa using he
    subst he2
    exact ⟨by simp, fun v => by simp, by simp⟩
  have hnil : ∀ e ∈ ([] : List Ev), ∀ v, e ≠ Ev.fanActive v := by simp
  have h := autoLight_compensation sysEx [Ev.tick 2000] (by decide) hmid
  exact ⟨by decide, by decide, (h.1 (by decide) [] hnil).1, h.2 [] hnil⟩

end Pando
